import Mathlib

/-!
Verification of the Kolibri plugin-manifest discovery pipeline
(spec.md §§1–8): ManifestParser (`parseBundlePlugin`), ManifestReader
(`readBundlePlugins`) and DirectoryWalker (`recurseBundlePlugins`).

The JavaScript implementation files of the three components are not part
of the provided sources (only their mocha test suite is), so the
definitions below are modelled from the specification, and checked at
every point the test suite pins down (return `undefined` on a missing
field, `output.library = "Kolibri"` for core records, length counts of
the bundle list and of the external map, marker-gated recursion).
-/

namespace Kolibri

/-- Modelled from the spec: RawManifestRecord (spec §3) — an untyped
mapping with optional string fields `name`, `entry_file`, `stats_file`,
`module_path` and boolean flags `external` and `core` (default false).
An absent field is `none`; a present-but-falsy field is `some ""`. -/
structure RawManifestRecord where
  name : Option String
  entry_file : Option String
  stats_file : Option String
  module_path : Option String
  external : Bool
  core : Bool
deriving Repr, DecidableEq

/-- JavaScript truthiness of an optional string field: absent
(`undefined`) and the empty string are falsy, everything else truthy. -/
def truthy (o : Option String) : Bool :=
  !(o.getD "" == "")

/-- A record is complete when all four required fields are present and
truthy (spec §4.1). -/
def complete (r : RawManifestRecord) : Bool :=
  truthy r.name && truthy r.entry_file && truthy r.stats_file && truthy r.module_path

/-- Modelled from the spec: path resolution used for the `entry` path
(spec §3: root directory + `module_path` + `entry_file`), joining two
segments with a `/` separator unless one is already present or the
left segment is empty. -/
def pathJoin (a b : String) : String :=
  if a = "" then b else a ++ "/" ++ b

/-- Modelled from the spec: the `output` target of a BundleDescriptor,
referencing the record's `stats_file` and the exposed library name
(spec §3). -/
structure OutputTarget where
  stats_file : String
  library : String
deriving Repr, DecidableEq

/-- Modelled from the spec: BundleDescriptor (spec §3) — resolved
`entry` path, `name` (renamed to the fixed literal "Kolibri" when the
`core` flag is set), and `output` target. -/
structure BundleDescriptor where
  entry : String
  name : String
  output : OutputTarget
deriving Repr, DecidableEq

/-- Modelled from the spec: ExternalDescriptor (spec §3) — present only
when `external` is true; shares the record's `name` and `entry`. -/
structure ExternalDescriptor where
  name : String
  entry : String
deriving Repr, DecidableEq

/-- Modelled from the spec: ManifestParser, `parse_bundle_plugin.js`
(spec §4.1; the file itself is absent from the sources, only its tests
are). `parse(record, rootDir)` fails closed: it returns `none`
(JavaScript `undefined`, per the test suite) when any of the four
required fields is missing or falsy; on a complete record it returns
the pair of a BundleDescriptor and an optional ExternalDescriptor,
the latter present iff `record.external` is truthy. When `record.core`
is truthy the exposed library name is forced to "Kolibri". -/
def parseBundlePlugin (record : RawManifestRecord) (rootDir : String) :
    Option (BundleDescriptor × Option ExternalDescriptor) :=
  if truthy record.name && truthy record.entry_file &&
      truthy record.stats_file && truthy record.module_path then
    let n := record.name.getD ""
    let entry := pathJoin (pathJoin rootDir (record.module_path.getD "")) (record.entry_file.getD "")
    let library := if record.core then "Kolibri" else n
    some ({ entry := entry, name := library,
            output := { stats_file := record.stats_file.getD "", library := library } },
          if record.external then some { name := n, entry := entry } else none)
  else
    none

/-- The BundleDescriptor component of a parse result (component `[0]`
of the returned pair; `none` when the whole result is absent). -/
def bundleOf (res : Option (BundleDescriptor × Option ExternalDescriptor)) :
    Option BundleDescriptor :=
  res.map Prod.fst

/-- The ExternalDescriptor component of a parse result (component `[1]`
of the returned pair; `none` when absent or when the whole result is
absent). -/
def externalOf (res : Option (BundleDescriptor × Option ExternalDescriptor)) :
    Option ExternalDescriptor :=
  res.bind Prod.snd

/-- Insertion of an ExternalDescriptor into the aggregate external map,
keyed by `name`; a repeated name overwrites the prior entry in place
(last-write-wins, no error; spec §3, §4.2). The map is an association
list whose keys are pairwise distinct by construction. -/
def insertExternal (m : List (String × ExternalDescriptor)) (e : ExternalDescriptor) :
    List (String × ExternalDescriptor) :=
  if m.any (fun p => p.1 == e.name) then
    m.map (fun p => if p.1 == e.name then (e.name, e) else p)
  else
    m ++ [(e.name, e)]

/-- One aggregation step of ManifestReader (spec §4.3): feed one
deserialized record through the parser, append a defined
BundleDescriptor to the list, insert a defined ExternalDescriptor into
the map, and drop the record entirely when the parser returns nothing. -/
def readStep (rootDir : String)
    (acc : List BundleDescriptor × List (String × ExternalDescriptor))
    (record : RawManifestRecord) :
    List BundleDescriptor × List (String × ExternalDescriptor) :=
  match parseBundlePlugin record rootDir with
  | none => acc
  | some (b, none) => (acc.1 ++ [b], acc.2)
  | some (b, some e) => (acc.1 ++ [b], insertExternal acc.2 e)

/-- Recursive worker of ManifestReader over the per-line deserialization
outcomes: the first line that failed to deserialize aborts the whole
read with that error; successfully deserialized records are aggregated
in line order. -/
def readAux (rootDir : String)
    (acc : List BundleDescriptor × List (String × ExternalDescriptor)) :
    List (Except String RawManifestRecord) →
      Except String (List BundleDescriptor × List (String × ExternalDescriptor))
  | [] => Except.ok acc
  | Except.error e :: _ => Except.error e
  | Except.ok r :: rest => readAux rootDir (readStep rootDir acc r) rest

/-- Modelled from the spec: ManifestReader, `read_bundle_plugins.js`
(spec §4.2; the file itself is absent from the sources, only its tests
are). The external discovery process and the per-line structured-text
deserialization are abstracted, per spec §9, as the ordered sequence of
per-line outcomes: each non-empty line of process output either
deserializes to a RawManifestRecord (`Except.ok`) or fails
(`Except.error`, fatal for the whole read). Empty process output is the
empty sequence and yields `([], {})`. -/
def readBundlePlugins (lines : List (Except String RawManifestRecord)) (rootDir : String) :
    Except String (List BundleDescriptor × List (String × ExternalDescriptor)) :=
  readAux rootDir ([], []) lines

/-- Modelled from the spec: a filesystem tree for the DirectoryWalker
(spec §4.3). A directory node carries, besides its entries, the pair
that ManifestReader would return when invoked on it — the pluggable
manifest-record provider abstraction of spec §9, mirroring how the test
suite substitutes `readBundlePlugins` with a stub. -/
inductive FSTree where
  | file : String → FSTree
  | dir : String → List BundleDescriptor × List (String × ExternalDescriptor) →
      List FSTree → FSTree
deriving Repr

/-- The fixed manifest marker filename (spec §3, §8: `kolibri_plugin.py`). -/
def markerName : String := "kolibri_plugin.py"

/-- Whether an entry is the manifest marker file. -/
def isMarker : FSTree → Bool
  | FSTree.file n => n == markerName
  | FSTree.dir _ _ _ => false

/-- Whether a directory's entry list directly contains the marker file. -/
def hasMarker (entries : List FSTree) : Bool :=
  entries.any isMarker

mutual

/-- Modelled from the spec: the DirectoryWalker's visit of one
directory (spec §4.3, `recurse_bundle_plugins.js`, absent from the
sources): if the marker file is directly inside, delegate to
ManifestReader (keeping only its bundle list) and do not descend
further; otherwise recurse into the immediate entries (non-directory
entries contribute nothing). -/
def walkDir : FSTree → List BundleDescriptor
  | FSTree.file _ => []
  | FSTree.dir _ readerOut children =>
      if hasMarker children then readerOut.1 else walkDirs children

/-- Walk of an ordered sequence of entries, concatenating the results
in order. -/
def walkDirs : List FSTree → List BundleDescriptor
  | [] => []
  | t :: ts => walkDir t ++ walkDirs ts

end

/-- Modelled from the spec: DirectoryWalker entry point (spec §4.3):
walk each start directory in order and concatenate the bundle lists;
the per-reader external maps are dropped from the returned value. -/
def recurseBundlePlugins (startDirs : List FSTree) : List BundleDescriptor :=
  walkDirs startDirs

mutual

/-- The reader outputs of the manifest directories discovered under one
tree, in traversal order: the reader output of this directory when the
marker is directly inside it, those of the subtrees otherwise. -/
def discovered : FSTree →
    List (List BundleDescriptor × List (String × ExternalDescriptor))
  | FSTree.file _ => []
  | FSTree.dir _ readerOut children =>
      if hasMarker children then [readerOut] else discoveredList children

/-- Discovered reader outputs of a sequence of entries, in order. -/
def discoveredList : List FSTree →
    List (List BundleDescriptor × List (String × ExternalDescriptor))
  | [] => []
  | t :: ts => discovered t ++ discoveredList ts

end

/-! Sample records, mirroring the fixtures of the mocha test suite. -/

/-- A complete record (all four required fields present and truthy). -/
def validRecord : RawManifestRecord :=
  { name := some "kolibri.plugin.test.test_plugin", entry_file := some "src/file.js",
    stats_file := some "output.json", module_path := some "kolibri/plugin/test",
    external := false, core := false }

/-- A record missing the `name` field. -/
def missingNameRecord : RawManifestRecord :=
  { name := none, entry_file := some "src/file.js",
    stats_file := some "output.json", module_path := some "kolibri/plugin/test",
    external := false, core := false }

/-- A complete record with both the `external` and the `core` flag set. -/
def coreRecord : RawManifestRecord :=
  { name := some "kolibri.plugin.test.test_plugin", entry_file := some "src/file.js",
    stats_file := some "output.json", module_path := some "kolibri/plugin/test",
    external := true, core := true }

/-- A complete external-flagged record. -/
def extRecordA : RawManifestRecord :=
  { name := some "kolibri.plugin.test.test_plugin", entry_file := some "src/file.js",
    stats_file := some "output.json", module_path := some "kolibri/plugin/test",
    external := true, core := false }

/-- A complete external-flagged record with a distinct name. -/
def extRecordB : RawManifestRecord :=
  { name := some "kolibri.plugin.test.test_plugin1", entry_file := some "src/file1.js",
    stats_file := some "output1.json", module_path := some "kolibri/plugin/test",
    external := true, core := false }

/-- A complete external-flagged record sharing `extRecordA`'s name but
with different files. -/
def extRecordA2 : RawManifestRecord :=
  { name := some "kolibri.plugin.test.test_plugin", entry_file := some "src/file1.js",
    stats_file := some "output1.json", module_path := some "kolibri/plugin/test",
    external := true, core := false }

/-! Helper lemmas about the parser. -/

/-- A truthy optional field is present and its default-extracted value
is the field's value. -/
theorem truthy_some_getD {o : Option String} (h : truthy o = true) :
    some (o.getD "") = o := by
  cases o with
  | none => simp [truthy] at h
  | some s => rfl

/-- Closed form of the parser on a complete record. -/
theorem parseBundlePlugin_complete (r : RawManifestRecord) (root : String)
    (h : complete r = true) :
    parseBundlePlugin r root =
      some ({ entry := pathJoin (pathJoin root (r.module_path.getD "")) (r.entry_file.getD ""),
              name := if r.core then "Kolibri" else r.name.getD "",
              output := { stats_file := r.stats_file.getD "",
                          library := if r.core then "Kolibri" else r.name.getD "" } },
            if r.external then
              some { name := r.name.getD "",
                     entry := pathJoin (pathJoin root (r.module_path.getD "")) (r.entry_file.getD "") }
            else none) := by
  unfold complete at h
  rw [parseBundlePlugin, if_pos h]

/-- The parser on an incomplete record returns nothing. -/
theorem parseBundlePlugin_incomplete (r : RawManifestRecord) (root : String)
    (h : complete r = false) :
    parseBundlePlugin r root = none := by
  unfold complete at h
  rw [parseBundlePlugin, if_neg (by simp [h])]

/-! Claim theorems about ManifestParser. -/

/-- C1: for every RawManifestRecord in which any one of `name`,
`entry_file`, `stats_file`, `module_path` is missing or falsy,
`parse` returns absent for the BundleDescriptor and absent for the
ExternalDescriptor, for any root directory (and, being a total Lean
function, does not throw). -/
theorem parseBundlePlugin_missing_or_falsy_gives_absent
    (r : RawManifestRecord) (root : String)
    (h : truthy r.name = false ∨ truthy r.entry_file = false ∨
         truthy r.stats_file = false ∨ truthy r.module_path = false) :
    bundleOf (parseBundlePlugin r root) = none ∧
    externalOf (parseBundlePlugin r root) = none := by
  have hp : parseBundlePlugin r root = none := by
    apply parseBundlePlugin_incomplete
    unfold complete
    rcases h with h | h | h | h <;> simp [h]
  rw [hp]
  exact ⟨rfl, rfl⟩

/-- Witness for C1 at a record missing its `name` field. -/
theorem parseBundlePlugin_missing_or_falsy_gives_absent_witness :
    truthy missingNameRecord.name = false ∧
    (bundleOf (parseBundlePlugin missingNameRecord "/") = none ∧
     externalOf (parseBundlePlugin missingNameRecord "/") = none) :=
  ⟨rfl, parseBundlePlugin_missing_or_falsy_gives_absent missingNameRecord "/" (Or.inl rfl)⟩

/-- C2: for every complete record whose `core` flag is set, the
BundleDescriptor's exposed library name is the fixed literal "Kolibri",
regardless of the record's `name` value. -/
theorem parseBundlePlugin_core_forces_Kolibri
    (r : RawManifestRecord) (root : String)
    (hc : complete r = true) (hcore : r.core = true) :
    ∃ res, parseBundlePlugin r root = some res ∧
      res.1.output.library = "Kolibri" := by
  refine ⟨_, parseBundlePlugin_complete r root hc, ?_⟩
  simp [hcore]

/-- Witness for C2 at the core-flagged sample record. -/
theorem parseBundlePlugin_core_forces_Kolibri_witness :
    complete coreRecord = true ∧ coreRecord.core = true ∧
    ∃ res, parseBundlePlugin coreRecord "/" = some res ∧
      res.1.output.library = "Kolibri" :=
  ⟨rfl, rfl, parseBundlePlugin_core_forces_Kolibri coreRecord "/" rfl rfl⟩

/-- C3: for every complete record, `parse` produces exactly one
BundleDescriptor, and it produces an ExternalDescriptor iff the
`external` flag is truthy; a produced ExternalDescriptor shares the
record's `name`. -/
theorem parseBundlePlugin_external_iff_flag
    (r : RawManifestRecord) (root : String) (hc : complete r = true) :
    ∃ b ext, parseBundlePlugin r root = some (b, ext) ∧
      ext.isSome = r.external ∧
      ∀ e, ext = some e → some e.name = r.name := by
  have hname : truthy r.name = true := by
    unfold complete at hc
    simp only [Bool.and_eq_true] at hc
    exact hc.1.1.1
  refine ⟨_, _, parseBundlePlugin_complete r root hc, ?_, ?_⟩
  · cases hext : r.external <;> simp
  · intro e he
    cases hext : r.external with
    | false => rw [hext] at he; simp at he
    | true =>
        rw [hext] at he
        simp at he
        subst he
        simpa using truthy_some_getD hname

/-- Witness for C3 at the external-flagged sample record. -/
theorem parseBundlePlugin_external_iff_flag_witness :
    complete extRecordA = true ∧
    ∃ b ext, parseBundlePlugin extRecordA "/" = some (b, ext) ∧
      ext.isSome = extRecordA.external ∧
      ∀ e, ext = some e → some e.name = extRecordA.name :=
  ⟨rfl, parseBundlePlugin_external_iff_flag extRecordA "/" rfl⟩

/-- C9: for every complete record and root directory, the
BundleDescriptor's `entry` is the resolution of the root directory
joined with `module_path` joined with `entry_file`, and its `output`
target references the record's `stats_file` and the library name. -/
theorem parseBundlePlugin_entry_and_output_fields
    (r : RawManifestRecord) (root : String) (hc : complete r = true) :
    ∃ res, parseBundlePlugin r root = some res ∧
      res.1.entry = pathJoin (pathJoin root (r.module_path.getD "")) (r.entry_file.getD "") ∧
      some res.1.output.stats_file = r.stats_file ∧
      res.1.output.library = (if r.core then "Kolibri" else r.name.getD "") := by
  have hstats : truthy r.stats_file = true := by
    unfold complete at hc
    simp only [Bool.and_eq_true] at hc
    exact hc.1.2
  exact ⟨_, parseBundlePlugin_complete r root hc, rfl, truthy_some_getD hstats, rfl⟩

/-- Witness for C9 at the complete sample record. -/
theorem parseBundlePlugin_entry_and_output_fields_witness :
    complete validRecord = true ∧
    ∃ res, parseBundlePlugin validRecord "/" = some res ∧
      res.1.entry =
        pathJoin (pathJoin "/" (validRecord.module_path.getD "")) (validRecord.entry_file.getD "") ∧
      some res.1.output.stats_file = validRecord.stats_file ∧
      res.1.output.library = (if validRecord.core then "Kolibri" else validRecord.name.getD "") :=
  ⟨rfl, parseBundlePlugin_entry_and_output_fields validRecord "/" rfl⟩

/-- C10: for every record missing a required field, the parser's entire
return value is the single absent value `none` (JavaScript `undefined`)
— not a pair of two absent components — so no pair can be extracted
from it, while for a complete record the result is an actual pair. -/
theorem parseBundlePlugin_invalid_result_is_undefined
    (r rv : RawManifestRecord) (root : String)
    (h : complete r = false) (hv : complete rv = true) :
    parseBundlePlugin r root = none ∧
    (∀ p, parseBundlePlugin r root ≠ some p) ∧
    (∃ p, parseBundlePlugin rv root = some p) := by
  have hn := parseBundlePlugin_incomplete r root h
  refine ⟨hn, ?_, ⟨_, parseBundlePlugin_complete rv root hv⟩⟩
  intro p hp
  rw [hn] at hp
  cases hp

/-- Witness for C10 at the missing-name record and the complete record. -/
theorem parseBundlePlugin_invalid_result_is_undefined_witness :
    complete missingNameRecord = false ∧ complete validRecord = true ∧
    (parseBundlePlugin missingNameRecord "/" = none ∧
     (∀ p, parseBundlePlugin missingNameRecord "/" ≠ some p) ∧
     (∃ p, parseBundlePlugin validRecord "/" = some p)) :=
  ⟨rfl, rfl, parseBundlePlugin_invalid_result_is_undefined missingNameRecord validRecord "/" rfl rfl⟩

/-! Helper lemmas about ManifestReader. -/

/-- On a sequence of successfully deserialized lines the reader is the
left fold of the aggregation step. -/
theorem readAux_ok_map (root : String)
    (rs : List RawManifestRecord)
    (acc : List BundleDescriptor × List (String × ExternalDescriptor)) :
    readAux root acc (rs.map Except.ok) = Except.ok (rs.foldl (readStep root) acc) := by
  induction rs generalizing acc with
  | nil => rfl
  | cons r rs ih => simp only [List.map_cons, readAux, List.foldl_cons, ih]

/-- One aggregation step appends exactly the defined BundleDescriptor
of the record, if any, to the bundle list. -/
theorem readStep_fst (root : String)
    (acc : List BundleDescriptor × List (String × ExternalDescriptor))
    (r : RawManifestRecord) :
    (readStep root acc r).1 = acc.1 ++ (bundleOf (parseBundlePlugin r root)).toList := by
  unfold readStep bundleOf
  cases h : parseBundlePlugin r root with
  | none => simp
  | some p =>
      cases p with
      | mk b eo => cases eo <;> simp

/-- The bundle-list component of the aggregation fold is the in-order
collection of the defined BundleDescriptors. -/
theorem foldl_readStep_fst (root : String) (rs : List RawManifestRecord)
    (acc : List BundleDescriptor × List (String × ExternalDescriptor)) :
    (rs.foldl (readStep root) acc).1 =
      acc.1 ++ rs.filterMap (fun r => bundleOf (parseBundlePlugin r root)) := by
  induction rs generalizing acc with
  | nil => simp
  | cons r rs ih =>
      rw [List.foldl_cons, ih, readStep_fst, List.filterMap_cons]
      cases bundleOf (parseBundlePlugin r root) <;> simp

/-- A line that failed to deserialize makes the whole read fail. -/
theorem readAux_error_mem (root : String) (e0 : String)
    (lines : List (Except String RawManifestRecord)) :
    Except.error e0 ∈ lines →
    ∀ acc, ∃ e, readAux root acc lines = Except.error e := by
  induction lines with
  | nil => intro h; simp at h
  | cons l rest ih =>
      intro h acc
      cases l with
      | error e => exact ⟨e, rfl⟩
      | ok r =>
          have hrest : Except.error e0 ∈ rest := by
            rcases List.mem_cons.mp h with h1 | h1
            · exact absurd h1 (by simp)
            · exact h1
          exact ih hrest (readStep root acc r)

/-! Claim theorems about ManifestReader. -/

/-- C6: on newline-separated process output whose lines all
deserialize, `read` returns one BundleDescriptor per record passing
field validation, in line order; failing records are excluded without
aborting; empty output yields an empty bundle list and an empty
external map. -/
theorem readBundlePlugins_collects_valid_records
    (rs : List RawManifestRecord) (root : String) :
    readBundlePlugins [] root = Except.ok ([], []) ∧
    ∃ em, readBundlePlugins (rs.map Except.ok) root =
      Except.ok (rs.filterMap (fun r => bundleOf (parseBundlePlugin r root)), em) := by
  constructor
  · rfl
  · refine ⟨(rs.foldl (readStep root) ([], [])).2, ?_⟩
    rw [readBundlePlugins, readAux_ok_map]
    have h1 : (rs.foldl (readStep root) ([], [])).1 =
        rs.filterMap (fun r => bundleOf (parseBundlePlugin r root)) := by
      simpa using foldl_readStep_fst root rs ([], [])
    exact congrArg Except.ok (Prod.ext h1 rfl)

/-- C7: valid external-flagged records are keyed by name in the
returned external map and duplicates resolve last-write-wins, silently:
two such records with distinct names yield a 2-entry map; with the same
name, a 1-entry map holding the later record's descriptor. -/
theorem readBundlePlugins_external_last_write_wins
    (r1 r2 : RawManifestRecord) (root : String)
    (b1 : BundleDescriptor) (e1 : ExternalDescriptor)
    (b2 : BundleDescriptor) (e2 : ExternalDescriptor)
    (h1 : parseBundlePlugin r1 root = some (b1, some e1))
    (h2 : parseBundlePlugin r2 root = some (b2, some e2)) :
    readBundlePlugins [Except.ok r1, Except.ok r2] root =
      Except.ok ([b1, b2],
        if e1.name = e2.name then [(e2.name, e2)] else [(e1.name, e1), (e2.name, e2)]) ∧
    (e1.name = e2.name →
      ∃ m, readBundlePlugins [Except.ok r1, Except.ok r2] root = Except.ok ([b1, b2], m) ∧
        m.length = 1 ∧ m = [(e2.name, e2)]) ∧
    (e1.name ≠ e2.name →
      ∃ m, readBundlePlugins [Except.ok r1, Except.ok r2] root = Except.ok ([b1, b2], m) ∧
        m.length = 2) := by
  have s1 : readStep root ([], []) r1 = ([b1], [(e1.name, e1)]) := by
    rw [readStep.eq_def, h1]
    simp [insertExternal]
  have s2 : readStep root ([b1], [(e1.name, e1)]) r2 =
      ([b1, b2], insertExternal [(e1.name, e1)] e2) := by
    rw [readStep.eq_def, h2]
    rfl
  have hread : readBundlePlugins [Except.ok r1, Except.ok r2] root =
      Except.ok ([b1, b2], insertExternal [(e1.name, e1)] e2) := by
    rw [readBundlePlugins]
    simp only [readAux]
    rw [s1, s2]
  have hmain : readBundlePlugins [Except.ok r1, Except.ok r2] root =
      Except.ok ([b1, b2],
        if e1.name = e2.name then [(e2.name, e2)] else [(e1.name, e1), (e2.name, e2)]) := by
    rw [hread]
    by_cases hname : e1.name = e2.name
    · simp [insertExternal, hname]
    · simp [insertExternal, hname]
  refine ⟨hmain, ?_, ?_⟩
  · intro hname
    refine ⟨[(e2.name, e2)], ?_, rfl, rfl⟩
    rw [hmain, if_pos hname]
  · intro hname
    refine ⟨[(e1.name, e1), (e2.name, e2)], ?_, rfl⟩
    rw [hmain, if_neg hname]

/-- The parser's output on the sample external record `extRecordA`
with an empty root directory. -/
def bundleA : BundleDescriptor :=
  { entry := "kolibri/plugin/test/src/file.js", name := "kolibri.plugin.test.test_plugin",
    output := { stats_file := "output.json", library := "kolibri.plugin.test.test_plugin" } }

/-- The external descriptor produced for `extRecordA`. -/
def extDescA : ExternalDescriptor :=
  { name := "kolibri.plugin.test.test_plugin", entry := "kolibri/plugin/test/src/file.js" }

/-- The parser's output on the sample external record `extRecordB`. -/
def bundleB : BundleDescriptor :=
  { entry := "kolibri/plugin/test/src/file1.js", name := "kolibri.plugin.test.test_plugin1",
    output := { stats_file := "output1.json", library := "kolibri.plugin.test.test_plugin1" } }

/-- The external descriptor produced for `extRecordB`. -/
def extDescB : ExternalDescriptor :=
  { name := "kolibri.plugin.test.test_plugin1", entry := "kolibri/plugin/test/src/file1.js" }

/-- The parser's output on the sample external record `extRecordA2`. -/
def bundleA2 : BundleDescriptor :=
  { entry := "kolibri/plugin/test/src/file1.js", name := "kolibri.plugin.test.test_plugin",
    output := { stats_file := "output1.json", library := "kolibri.plugin.test.test_plugin" } }

/-- The external descriptor produced for `extRecordA2`. -/
def extDescA2 : ExternalDescriptor :=
  { name := "kolibri.plugin.test.test_plugin", entry := "kolibri/plugin/test/src/file1.js" }

/-- Witness for C7 at two distinct-named and two identically-named
external records, mirroring the mocha fixtures. -/
theorem readBundlePlugins_external_last_write_wins_witness :
    parseBundlePlugin extRecordA "" = some (bundleA, some extDescA) ∧
    readBundlePlugins [Except.ok extRecordA, Except.ok extRecordB] "" =
      Except.ok ([bundleA, bundleB],
        [("kolibri.plugin.test.test_plugin", extDescA),
         ("kolibri.plugin.test.test_plugin1", extDescB)]) ∧
    readBundlePlugins [Except.ok extRecordA, Except.ok extRecordA2] "" =
      Except.ok ([bundleA, bundleA2], [("kolibri.plugin.test.test_plugin", extDescA2)]) := by
  refine ⟨rfl, ?_, ?_⟩
  · have h := (readBundlePlugins_external_last_write_wins extRecordA extRecordB ""
      bundleA extDescA bundleB extDescB rfl rfl).1
    rw [h, if_neg (by decide)]
    rfl
  · have h := (readBundlePlugins_external_last_write_wins extRecordA extRecordA2 ""
      bundleA extDescA bundleA2 extDescA2 rfl rfl).1
    rw [h, if_pos (show extDescA.name = extDescA2.name from rfl)]
    rfl

/-- C8: process output containing at least one line that fails to
deserialize makes the whole read fail with a propagated error; the
read does not skip the bad line and return the remaining
descriptors. -/
theorem readBundlePlugins_bad_line_fatal
    (lines : List (Except String RawManifestRecord)) (root : String)
    (h : ∃ e0, Except.error e0 ∈ lines) :
    (∃ e, readBundlePlugins lines root = Except.error e) ∧
    ∀ res, readBundlePlugins lines root ≠ Except.ok res := by
  rcases h with ⟨e0, he⟩
  obtain ⟨e, heq⟩ := readAux_error_mem root e0 lines he ([], [])
  have heq2 : readBundlePlugins lines root = Except.error e := heq
  refine ⟨⟨e, heq2⟩, ?_⟩
  intro res hok
  rw [heq2] at hok
  cases hok

/-- Witness for C8 at an output with one good and one bad line. -/
theorem readBundlePlugins_bad_line_fatal_witness :
    (∃ e0, Except.error e0 ∈
      ([Except.ok validRecord, Except.error "bad json"] :
        List (Except String RawManifestRecord))) ∧
    ((∃ e, readBundlePlugins [Except.ok validRecord, Except.error "bad json"] "" =
        Except.error e) ∧
     ∀ res, readBundlePlugins [Except.ok validRecord, Except.error "bad json"] "" ≠
        Except.ok res) :=
  ⟨⟨"bad json", by simp⟩,
   readBundlePlugins_bad_line_fatal [Except.ok validRecord, Except.error "bad json"] ""
     ⟨"bad json", by simp⟩⟩

/-! Helper lemmas and claim theorems about the DirectoryWalker. -/

mutual

/-- A tree's walk is the concatenation of the bundle lists of its
discovered reader outputs, in traversal order. -/
theorem walkDir_eq_discovered : ∀ t : FSTree,
    walkDir t = ((discovered t).map Prod.fst).flatten
  | FSTree.file s => by
      simp [walkDir, discovered]
  | FSTree.dir n ro children => by
      rw [walkDir, discovered]
      by_cases h : hasMarker children
      · simp [h]
      · simp only [h, if_neg, Bool.false_eq_true, if_false]
        exact walkDirs_eq_discoveredList children

/-- A forest's walk is the concatenation of the bundle lists of its
discovered reader outputs, in traversal order. -/
theorem walkDirs_eq_discoveredList : ∀ ts : List FSTree,
    walkDirs ts = ((discoveredList ts).map Prod.fst).flatten
  | [] => by simp [walkDirs, discoveredList]
  | t :: ts => by
      rw [walkDirs, discoveredList, walkDir_eq_discovered t, walkDirs_eq_discoveredList ts]
      simp

end

/-- A sample bundle descriptor carried by stubbed reader outputs. -/
def sampleBundle : BundleDescriptor :=
  { entry := "dir1/src/file.js", name := "kolibri.plugin.test.test_plugin",
    output := { stats_file := "output.json", library := "kolibri.plugin.test.test_plugin" } }

/-- A second sample bundle descriptor. -/
def sampleBundle2 : BundleDescriptor :=
  { entry := "dir2/src/file1.js", name := "kolibri.plugin.test.test_plugin1",
    output := { stats_file := "output1.json", library := "kolibri.plugin.test.test_plugin1" } }

/-- A directory that directly contains the marker file and whose reader
yields one bundle. -/
def leafDir1 : FSTree :=
  FSTree.dir "dir1" ([sampleBundle], []) [FSTree.file markerName]

/-- A second directory that directly contains the marker file. -/
def leafDir2 : FSTree :=
  FSTree.dir "dir2" ([sampleBundle2], []) [FSTree.file markerName]

/-- The entries of a directory without a top-level marker: one
subdirectory that itself holds the marker. -/
def nestedChildren : List FSTree :=
  [FSTree.dir "sub" ([sampleBundle], []) [FSTree.file markerName]]

/-- A directory with no top-level marker but a marker one level down. -/
def nestedDir : FSTree :=
  FSTree.dir "dir1" ([], []) nestedChildren

/-- C4: for every visited directory, if the marker file
`kolibri_plugin.py` is directly inside it the walk returns the
ManifestReader's bundle list for that directory and never recurses
into its subdirectories; if the marker is absent the walk recurses
into the immediate entries, so a marker one level down is still
found. -/
theorem walkDir_marker_gated (n : String)
    (readerOut : List BundleDescriptor × List (String × ExternalDescriptor))
    (children : List FSTree) :
    (hasMarker children = true →
      walkDir (FSTree.dir n readerOut children) = readerOut.1) ∧
    (hasMarker children = false →
      walkDir (FSTree.dir n readerOut children) = walkDirs children) := by
  constructor <;> intro h <;> simp [walkDir, h]

/-- Witness for C4: a marker directory is read without recursion, and
a nested marker one level down is found by recursion. -/
theorem walkDir_marker_gated_witness :
    (hasMarker [FSTree.file markerName] = true ∧
      walkDir leafDir1 = [sampleBundle]) ∧
    (hasMarker nestedChildren = false ∧
      walkDir nestedDir = walkDirs nestedChildren ∧
      walkDir nestedDir = [sampleBundle]) := by
  refine ⟨⟨rfl, ?_⟩, rfl, ?_, ?_⟩
  · exact (walkDir_marker_gated "dir1" ([sampleBundle], []) [FSTree.file markerName]).1 rfl
  · exact (walkDir_marker_gated "dir1" ([], []) nestedChildren).2 rfl
  · rw [show walkDir nestedDir = walkDirs nestedChildren from
        (walkDir_marker_gated "dir1" ([], []) nestedChildren).2 rfl]
    rfl

/-- C5: for every ordered sequence of start directories, the walk
returns exactly the concatenation, in traversal order over the
discovered manifest directories, of each ManifestReader's bundle list;
the per-reader external maps are dropped from the returned value.
Concretely, two marker directories each yielding one bundle give a
combined list of length 2. -/
theorem recurseBundlePlugins_concat_discovered (startDirs : List FSTree) :
    recurseBundlePlugins startDirs =
      ((discoveredList startDirs).map Prod.fst).flatten ∧
    recurseBundlePlugins [leafDir1, leafDir2] = [sampleBundle, sampleBundle2] :=
  ⟨walkDirs_eq_discoveredList startDirs, rfl⟩

end Kolibri
